import Mathlib

/-!
# Verification of the user-registration service (`src/server.js`)

Shallow embedding of the Express + MySQL + multer + bcrypt service:
the `users` data model, the register/login/dashboard handlers, the
multer file filter and size limit, the disk-storage filename generator,
and the schema provisioner's check-then-add column migration.

External library behaviour (bcrypt hashing, multer enforcement of the
configured filter/limits, MySQL's duplicate-key error code) is modelled
from the specification's component contracts; every function that appears
in `server.js` itself is translated directly from the source.
-/

namespace Server

/-- JavaScript truthiness of an optional request-body string field:
`!x` is true when the field is absent or the empty string. -/
def truthy (o : Option String) : Bool :=
  match o with
  | none => false
  | some s => !(s == "")

/-! ## Credential service (bcrypt), modelled from the spec

Modelled from the spec: the `bcrypt` library is not part of this
repository.  §4.3: `hash(plaintext) -> hashString` computes a salted
hash with a fixed cost factor (10 in the source) and the salt is
embedded in the output; `verify` recomputes from the embedded salt and
compares.  The model renders the hash as
`"$2b$10$" ++ <decimal salt> ++ "$" ++ <digest>` where the digest maps
each plaintext character through a salt-dependent substitution. -/

/-- Decimal digits of `n`, least significant first, with explicit fuel
so the recursion is structural. -/
def saltDigitsAux : Nat → Nat → List Nat
  | 0, _ => []
  | _ + 1, 0 => []
  | fuel + 1, n + 1 => ((n + 1) % 10) :: saltDigitsAux fuel ((n + 1) / 10)

/-- Decimal digits of `n`, least significant first. -/
def saltDigits (n : Nat) : List Nat := saltDigitsAux n n

/-- The ASCII digit character for a decimal digit. -/
def digitChar (d : Nat) : Char := Char.ofNat (48 + d)

/-- The salt as embedded in a rendered bcrypt hash string. -/
def encodeSalt (s : Nat) : List Char := (saltDigits s).map digitChar

/-- Rebuild a number from its little-endian decimal digits. -/
def undigits : List Nat → Nat
  | [] => 0
  | d :: ds => d + 10 * undigits ds

/-- Recover the salt from its embedded character representation. -/
def decodeSalt (l : List Char) : Nat := undigits (l.map (fun c => c.toNat - 48))

/-- One digest character per plaintext character: a salt-dependent
substitution into `'a'..'z'`, standing in for the one-way transform. -/
def digestChar (s : Nat) (c : Char) : Char := Char.ofNat (97 + (c.toNat + s) % 26)

/-- Modelled from the spec: `bcrypt.hash(password, 10)` with salt `s`;
the version/cost header and the salt are embedded in the output string,
followed by the digest of the plaintext. -/
def bcryptHash (s : Nat) (p : String) : String :=
  "$2b$10$" ++ String.mk (encodeSalt s) ++ "$" ++ String.mk (p.data.map (digestChar s))

/-- Modelled from the spec: `bcrypt.compare(password, hash)` extracts
the embedded salt, recomputes the hash of the candidate plaintext under
it, and compares with the stored string. -/
def bcryptCompare (p h : String) : Bool :=
  bcryptHash (decodeSalt ((h.data.drop 7).takeWhile (fun c => !(c == '$')))) p == h

/-! ## Data model -/

/-- A row of the `users` table.  `age` and `gender` are carried as the
raw optional request-body strings the INSERT binds; `reg_date` is the
creation timestamp. -/
structure User where
  id : Nat
  fullname : String
  email : String
  password : String
  age : Option String
  gender : Option String
  profile_image : Option String
  cv_filename : Option String
  reg_date : Nat
deriving DecidableEq

/-- A user record with the `password` field removed: what login returns
(`const { password: _, ...userWithoutPassword } = user`) and what the
dashboard SELECT projects. -/
structure UserSafe where
  id : Nat
  fullname : String
  email : String
  age : Option String
  gender : Option String
  profile_image : Option String
  cv_filename : Option String
  reg_date : Nat
deriving DecidableEq

/-- Remove exactly the password field from a stored record. -/
def stripPassword (u : User) : UserSafe :=
  { id := u.id, fullname := u.fullname, email := u.email, age := u.age,
    gender := u.gender, profile_image := u.profile_image,
    cv_filename := u.cv_filename, reg_date := u.reg_date }

/-- JSON response bodies produced by the three handlers. -/
inductive RespBody
  | err (msg : String)
  | registered (message : String) (userId : Nat)
  | loginOk (message : String) (user : UserSafe)
  | dashUser (user : UserSafe)
deriving DecidableEq

/-- An HTTP response: status code and JSON body. -/
structure Response where
  status : Nat
  body : RespBody
deriving DecidableEq

/-- Store-level insert errors: MySQL's duplicate-key error code versus
any other error. -/
inductive DbErr
  | ER_DUP_ENTRY
  | other
deriving DecidableEq

/-- Modelled from the spec: the parameterized INSERT against the
`users` table, whose UNIQUE constraint on `email` yields
`ER_DUP_ENTRY`; `fault` injects any other store error. -/
def dbInsert (store : List User) (u : User) (fault : Bool) :
    Except DbErr (List User × Nat) :=
  if fault then .error .other
  else if store.any (fun v => v.email == u.email) then .error .ER_DUP_ENTRY
  else .ok (store ++ [u], u.id)

/-! ## Register handler body (`app.post('/register')`) -/

/-- The multipart body fields of a registration request. -/
structure RegisterBody where
  fullname : Option String
  email : Option String
  password : Option String
  age : Option String
  gender : Option String
deriving DecidableEq

/-- The register handler body, after multer has run: validate required
fields, hash the password with salt `salt`, and insert; `nextId` is the
AUTO_INCREMENT id, `regDate` the TIMESTAMP default, `fault` a
non-duplicate store failure.  Returns the response and the store after
the request. -/
def register (body : RegisterBody) (profileImage cvFile : Option String)
    (store : List User) (salt nextId regDate : Nat) (fault : Bool) :
    Response × List User :=
  if !(truthy body.fullname && truthy body.email && truthy body.password) then
    (⟨400, .err "Full name, email, and password are required"⟩, store)
  else
    let hashedPassword := bcryptHash salt (body.password.getD "")
    let u : User :=
      { id := nextId, fullname := body.fullname.getD "",
        email := body.email.getD "", password := hashedPassword,
        age := body.age, gender := body.gender,
        profile_image := profileImage, cv_filename := cvFile,
        reg_date := regDate }
    match dbInsert store u fault with
    | .error .ER_DUP_ENTRY => (⟨400, .err "Email already registered"⟩, store)
    | .error .other => (⟨500, .err "Database error"⟩, store)
    | .ok (store', newId) =>
        (⟨201, .registered "User registered successfully" newId⟩, store')

/-! ## Login handler (`app.post('/login')`) -/

/-- The login handler: validate email+password, `SELECT * FROM users
WHERE email = ?` (first match), verify the password against the stored
hash, and on success return the record minus the password field.
`fault` models a store error on the SELECT. -/
def login (email password : Option String) (store : List User) (fault : Bool) :
    Response :=
  if !(truthy email && truthy password) then
    ⟨400, .err "Email and password are required"⟩
  else if fault then
    ⟨500, .err "Database error"⟩
  else
    match store.find? (fun u => u.email == email.getD "") with
    | none => ⟨401, .err "Invalid email or password"⟩
    | some user =>
        if !(bcryptCompare (password.getD "") user.password) then
          ⟨401, .err "Invalid email or password"⟩
        else
          ⟨200, .loginOk "Login successful" (stripPassword user)⟩

/-! ## Dashboard handler (`app.get('/dashboard')`) -/

/-- The dashboard handler: `req.query.userId` (absent → 401), then
`SELECT id, fullname, email, age, gender, profile_image, cv_filename,
reg_date FROM users WHERE id = ?` (404 when empty); on success 200 with
the projected record.  `fault` models a store error on the SELECT. -/
def dashboard (userId : Option Nat) (store : List User) (fault : Bool) :
    Response :=
  match userId with
  | none => ⟨401, .err "User ID required"⟩
  | some uid =>
      if fault then ⟨500, .err "Database error"⟩
      else
        match store.find? (fun u => u.id == uid) with
        | none => ⟨404, .err "User not found"⟩
        | some user => ⟨200, .dashUser (stripPassword user)⟩

/-! ## Multer configuration: file filter, size limit, storage names -/

/-- An incoming multipart file part.  `originalExt` is
`path.extname(file.originalname)` of the original file name. -/
structure FilePart where
  fieldname : String
  mimetype : String
  originalExt : String
  size : Nat
deriving DecidableEq

/-- The `fileFilter` function: accept field `image` with a MIME type
starting `image/`, field `cv` with MIME type exactly
`application/pdf`, and reject everything else. -/
def fileFilter (fieldname mimetype : String) : Bool :=
  if fieldname == "image" && mimetype.startsWith "image/" then true
  else if fieldname == "cv" && mimetype == "application/pdf" then true
  else false

/-- The configured per-file size ceiling: `10 * 1024 * 1024` bytes. -/
def fileSizeLimit : Nat := 10 * 1024 * 1024

/-- Modelled from the spec: multer accepts a file part iff the
configured `fileFilter` accepts it and its size is within the
configured `limits.fileSize`. -/
def uploadAccepts (f : FilePart) : Bool :=
  fileFilter f.fieldname f.mimetype && f.size ≤ fileSizeLimit

/-- The `storage.filename` generator: semantic prefix by field name,
then the unique suffix (`Date.now() + '-' + random`) and the original
extension. -/
def storageFilename (fieldname uniqueSuffix extname : String) : String :=
  if fieldname == "image" then "profile-" ++ uniqueSuffix ++ extname
  else if fieldname == "cv" then "cv-" ++ uniqueSuffix ++ extname
  else fieldname ++ "-" ++ uniqueSuffix ++ extname

/-- Modelled from the spec: multer's request-level screening of the
file parts, before the handler body runs.  A part rejected by
`fileFilter` surfaces the `Invalid file type` error; a part over the
size limit surfaces multer's file-size error.  `none` means all parts
were accepted. -/
def multerCheck (files : List FilePart) : Option String :=
  match files.find? (fun f => !fileFilter f.fieldname f.mimetype) with
  | some _ => some "Invalid file type"
  | none =>
      match files.find? (fun f => fileSizeLimit < f.size) with
      | some _ => some "File too large"
      | none => none

/-- The whole `/register` route: multer screens the file parts (a
rejection becomes a request-level error response and the handler body
never runs), then the stored filenames are generated and the handler
body executes. -/
def registerEndpoint (body : RegisterBody) (files : List FilePart)
    (store : List User) (salt nextId regDate : Nat) (fault : Bool)
    (uniqueSuffix : String) : Response × List User :=
  match multerCheck files with
  | some msg => (⟨500, .err msg⟩, store)
  | none =>
      let profileImage := (files.find? (fun f => f.fieldname == "image")).map
        (fun f => storageFilename f.fieldname uniqueSuffix f.originalExt)
      let cvFile := (files.find? (fun f => f.fieldname == "cv")).map
        (fun f => storageFilename f.fieldname uniqueSuffix f.originalExt)
      register body profileImage cvFile store salt nextId regDate fault

/-! ## Schema provisioner (`checkAndAddColumns`) -/

/-- The two optional columns the provisioner migrates. -/
def columnsToCheck : List String := ["profile_image", "cv_filename"]

/-- The catalog probe: `SELECT COUNT(*) FROM information_schema.columns
WHERE ... column_name = c` against the `users` table's column list. -/
def checkColumnCount (schema : List String) (c : String) : Nat :=
  schema.countP (fun col => col == c)

/-- One check-then-add step: when the catalog count is zero, issue
`ALTER TABLE users ADD COLUMN c VARCHAR(255)` (the returned flag
records that an ALTER was issued); otherwise leave the table alone. -/
def checkAndAddColumn (schema : List String) (c : String) :
    List String × Bool :=
  if checkColumnCount schema c == 0 then (schema ++ [c], true)
  else (schema, false)

/-- `checkAndAddColumns`: run the check-then-add step for each column
in `columnsToCheck`; returns the final column list and the list of
columns for which an ALTER TABLE was issued. -/
def checkAndAddColumns (schema : List String) : List String × List String :=
  columnsToCheck.foldl
    (fun acc c =>
      let r := checkAndAddColumn acc.1 c
      (r.1, acc.2 ++ if r.2 then [c] else []))
    (schema, [])

/-! ## Support lemmas for the credential-service model -/

theorem undigits_saltDigitsAux (fuel : Nat) :
    ∀ n, n ≤ fuel → undigits (saltDigitsAux fuel n) = n := by
  induction fuel with
  | zero =>
      intro n hn
      interval_cases n
      simp [saltDigitsAux, undigits]
  | succ fuel ih =>
      intro n hn
      cases n with
      | zero => simp [saltDigitsAux, undigits]
      | succ m =>
          have hdiv : (m + 1) / 10 ≤ fuel := by
            have h1 : (m + 1) / 10 < m + 1 := Nat.div_lt_self (Nat.succ_pos m) (by omega)
            omega
          simp only [saltDigitsAux, undigits, ih _ hdiv]
          omega

theorem undigits_saltDigits (n : Nat) : undigits (saltDigits n) = n :=
  undigits_saltDigitsAux n n le_rfl

theorem saltDigitsAux_lt (fuel : Nat) :
    ∀ n d, d ∈ saltDigitsAux fuel n → d < 10 := by
  induction fuel with
  | zero => intro n d hd; simp [saltDigitsAux] at hd
  | succ fuel ih =>
      intro n d hd
      cases n with
      | zero => simp [saltDigitsAux] at hd
      | succ m =>
          simp only [saltDigitsAux, List.mem_cons] at hd
          rcases hd with h | h
          · omega
          · exact ih _ _ h

theorem digitChar_toNat {d : Nat} (hd : d < 10) : (digitChar d).toNat = 48 + d := by
  interval_cases d <;> decide

theorem decodeSalt_encodeSalt (s : Nat) : decodeSalt (encodeSalt s) = s := by
  unfold decodeSalt encodeSalt
  rw [List.map_map]
  have hmap : (saltDigits s).map (fun d => (digitChar d).toNat - 48) =
      (saltDigits s).map id := by
    apply List.map_congr_left
    intro d hd
    have : d < 10 := saltDigitsAux_lt s s d hd
    simp [digitChar_toNat this]
  have : (Char.toNat ∘ digitChar) = fun d => (digitChar d).toNat := rfl
  rw [show ((fun c => c.toNat - 48) ∘ digitChar) = fun d => (digitChar d).toNat - 48 from rfl]
  rw [hmap, List.map_id]
  exact undigits_saltDigits s

theorem encodeSalt_injective {s₁ s₂ : Nat} (h : encodeSalt s₁ = encodeSalt s₂) :
    s₁ = s₂ := by
  have := congrArg decodeSalt h
  rwa [decodeSalt_encodeSalt, decodeSalt_encodeSalt] at this

theorem bcryptHash_data (s : Nat) (p : String) :
    (bcryptHash s p).data =
      "$2b$10$".data ++ encodeSalt s ++ ('$' :: p.data.map (digestChar s)) := by
  simp [bcryptHash, String.data_append]

/-- The rendered hash is always strictly longer than the plaintext. -/
theorem bcryptHash_length (s : Nat) (p : String) :
    (bcryptHash s p).length = 8 + (encodeSalt s).length + p.length := by
  have h := congrArg List.length (bcryptHash_data s p)
  simp only [List.length_append, List.length_cons, List.length_map,
    List.length_nil] at h
  have h7 : "$2b$10$".data.length = 7 := rfl
  have hh : (bcryptHash s p).length = (bcryptHash s p).data.length := rfl
  have hp : p.length = p.data.length := rfl
  omega

/-- The stored hash is never equal to the plaintext password. -/
theorem bcryptHash_ne_plaintext (s : Nat) (p : String) : bcryptHash s p ≠ p := by
  intro h
  have := congrArg String.length h
  rw [bcryptHash_length] at this
  omega

/-- Hashing the same plaintext under two different salts yields two
different hash strings. -/
theorem bcryptHash_salt_ne {s₁ s₂ : Nat} (p : String) (h : s₁ ≠ s₂) :
    bcryptHash s₁ p ≠ bcryptHash s₂ p := by
  intro heq
  apply h
  have hdata := congrArg String.data heq
  rw [bcryptHash_data, bcryptHash_data] at hdata
  have hlen : (encodeSalt s₁).length = (encodeSalt s₂).length := by
    have := congrArg List.length hdata
    simp only [List.length_append, List.length_cons, List.length_map] at this
    omega
  have h2 : encodeSalt s₁ ++ ('$' :: p.data.map (digestChar s₁)) =
      encodeSalt s₂ ++ ('$' :: p.data.map (digestChar s₂)) := by
    rw [List.append_assoc, List.append_assoc] at hdata
    exact List.append_cancel_left hdata
  exact encodeSalt_injective (List.append_inj h2 hlen).1

/-- Accepted field/type combinations, used by the filter and the
filename generator reasoning. -/
theorem fileFilter_field_cases {fn mt : String} (h : fileFilter fn mt = true) :
    fn = "image" ∨ fn = "cv" := by
  unfold fileFilter at h
  split_ifs at h with h1 h2
  · simp only [Bool.and_eq_true, beq_iff_eq] at h1
    exact Or.inl h1.1
  · simp only [Bool.and_eq_true, beq_iff_eq] at h2
    exact Or.inr h2.1

/-! ## Claims -/

/-- C1: for a registration request with the required fields present, a
store whose records already contain the request's email makes the
insert fail with the uniqueness violation and the handler answer 400
with the distinct message `Email already registered` (store unchanged),
while any other store error on the insert is answered 500 with
`Database error` (store unchanged). -/
theorem register_dup_email_vs_store_error
    (body : RegisterBody) (profileImage cvFile : Option String)
    (store : List User) (salt nextId regDate : Nat)
    (hf : truthy body.fullname = true) (he : truthy body.email = true)
    (hp : truthy body.password = true) :
    (store.any (fun v => v.email == body.email.getD "") = true →
      register body profileImage cvFile store salt nextId regDate false =
        (⟨400, .err "Email already registered"⟩, store)) ∧
    register body profileImage cvFile store salt nextId regDate true =
      (⟨500, .err "Database error"⟩, store) := by
  constructor
  · intro hdup
    simp [register, hf, he, hp, dbInsert, hdup]
  · simp [register, hf, he, hp, dbInsert]

theorem register_dup_email_vs_store_error_witness :
    (([{ id := 1, fullname := "Bob", email := "a@x.com",
         password := "h", age := none, gender := none,
         profile_image := none, cv_filename := none,
         reg_date := 0 }] : List User).any
        (fun v => v.email == (some "a@x.com").getD "") = true) ∧
    register ⟨some "Alice", some "a@x.com", some "pw", none, none⟩ none none
        [{ id := 1, fullname := "Bob", email := "a@x.com", password := "h",
           age := none, gender := none, profile_image := none,
           cv_filename := none, reg_date := 0 }] 3 2 5 false =
      (⟨400, .err "Email already registered"⟩,
       [{ id := 1, fullname := "Bob", email := "a@x.com", password := "h",
          age := none, gender := none, profile_image := none,
          cv_filename := none, reg_date := 0 }]) := by
  refine ⟨by decide, ?_⟩
  exact (register_dup_email_vs_store_error
    ⟨some "Alice", some "a@x.com", some "pw", none, none⟩ none none
    _ 3 2 5 (by decide) (by decide) (by decide)).1 (by decide)

/-- C2: a registration request in which fullname, email, or password is
missing is answered 400 and inserts nothing: the store after the
request is the store before it. -/
theorem register_missing_field_no_insert
    (body : RegisterBody) (profileImage cvFile : Option String)
    (store : List User) (salt nextId regDate : Nat) (fault : Bool)
    (h : body.fullname = none ∨ body.email = none ∨ body.password = none) :
    register body profileImage cvFile store salt nextId regDate fault =
      (⟨400, .err "Full name, email, and password are required"⟩, store) := by
  rcases h with h | h | h <;> simp [register, truthy, h]

theorem register_missing_field_no_insert_witness :
    register ⟨some "Alice", some "a@x.com", none, none, none⟩ none none
        [] 3 1 5 false =
      (⟨400, .err "Full name, email, and password are required"⟩, []) :=
  register_missing_field_no_insert
    ⟨some "Alice", some "a@x.com", none, none, none⟩ none none [] 3 1 5 false
    (Or.inr (Or.inr rfl))

/-- C3: with email and password present, a login whose email matches no
stored record and a login whose password fails verification against the
matched record's hash produce the very same response: status 401 with
body `Invalid email or password`, so the two outcomes are
indistinguishable to the client. -/
theorem login_unknown_email_or_wrong_password_indistinguishable
    (email password : Option String) (store : List User)
    (he : truthy email = true) (hp : truthy password = true) :
    (store.find? (fun u => u.email == email.getD "") = none →
      login email password store false =
        ⟨401, .err "Invalid email or password"⟩) ∧
    (∀ u, store.find? (fun u => u.email == email.getD "") = some u →
      bcryptCompare (password.getD "") u.password = false →
      login email password store false =
        ⟨401, .err "Invalid email or password"⟩) := by
  constructor
  · intro hfind
    simp [login, he, hp, hfind]
  · intro u hfind hcmp
    simp [login, he, hp, hfind, hcmp]

theorem login_unknown_email_or_wrong_password_indistinguishable_witness :
    login (some "a@x.com") (some "pw") [] false =
      ⟨401, .err "Invalid email or password"⟩ :=
  (login_unknown_email_or_wrong_password_indistinguishable
    (some "a@x.com") (some "pw") [] (by decide) (by decide)).1 (by decide)

/-- C4: two registrations that both succeed with the same plaintext
password store salted hashes: each stored password value is the salted
hash of the plaintext and never the plaintext itself, and the two
stored hash strings differ because each registration uses its own
salt. -/
theorem register_stores_salted_hash
    (b₁ b₂ : RegisterBody) (pi₁ cv₁ pi₂ cv₂ : Option String)
    (store : List User) (s₁ s₂ n₁ n₂ d₁ d₂ : Nat) (pw e₁ e₂ : String)
    (hpw₁ : b₁.password = some pw) (hpw₂ : b₂.password = some pw)
    (hf₁ : truthy b₁.fullname = true) (hf₂ : truthy b₂.fullname = true)
    (he₁ : b₁.email = some e₁) (he₂ : b₂.email = some e₂)
    (ht₁ : truthy b₁.email = true) (ht₂ : truthy b₂.email = true)
    (hq₁ : truthy b₁.password = true) (hq₂ : truthy b₂.password = true)
    (hsalts : s₁ ≠ s₂)
    (hfresh₁ : store.any (fun v => v.email == e₁) = false)
    (hfresh₂ : store.any (fun v => v.email == e₂) = false)
    (hne : e₂ ≠ e₁) :
    ∃ u₁ u₂ : User,
      (register b₁ pi₁ cv₁ store s₁ n₁ d₁ false).2 = store ++ [u₁] ∧
      (register b₂ pi₂ cv₂ (store ++ [u₁]) s₂ n₂ d₂ false).2 =
        store ++ [u₁] ++ [u₂] ∧
      u₁.password = bcryptHash s₁ pw ∧ u₂.password = bcryptHash s₂ pw ∧
      u₁.password ≠ pw ∧ u₂.password ≠ pw ∧ u₁.password ≠ u₂.password := by
  refine ⟨{ id := n₁, fullname := b₁.fullname.getD "", email := e₁,
            password := bcryptHash s₁ pw, age := b₁.age, gender := b₁.gender,
            profile_image := pi₁, cv_filename := cv₁, reg_date := d₁ },
          { id := n₂, fullname := b₂.fullname.getD "", email := e₂,
            password := bcryptHash s₂ pw, age := b₂.age, gender := b₂.gender,
            profile_image := pi₂, cv_filename := cv₂, reg_date := d₂ },
          ?_, ?_, rfl, rfl, bcryptHash_ne_plaintext s₁ pw,
          bcryptHash_ne_plaintext s₂ pw, bcryptHash_salt_ne pw hsalts⟩
  · rw [he₁] at ht₁; rw [hpw₁] at hq₁
    simp [register, hf₁, ht₁, hq₁, dbInsert, he₁, hpw₁, hfresh₁]
  · have hbe : (e₁ == e₂) = false := by
      simp only [beq_eq_false_iff_ne, ne_eq]
      exact fun h => hne h.symm
    rw [he₂] at ht₂; rw [hpw₂] at hq₂
    simp [register, hf₂, ht₂, hq₂, dbInsert, he₂, hpw₂, hfresh₂, hbe]

theorem register_stores_salted_hash_witness :
    ∃ u₁ u₂ : User,
      (register ⟨some "Alice", some "a@x.com", some "pw", none, none⟩
          none none [] 3 1 10 false).2 = [] ++ [u₁] ∧
      (register ⟨some "Bob", some "b@x.com", some "pw", none, none⟩
          none none ([] ++ [u₁]) 4 2 11 false).2 = [] ++ [u₁] ++ [u₂] ∧
      u₁.password = bcryptHash 3 "pw" ∧ u₂.password = bcryptHash 4 "pw" ∧
      u₁.password ≠ "pw" ∧ u₂.password ≠ "pw" ∧ u₁.password ≠ u₂.password :=
  register_stores_salted_hash
    ⟨some "Alice", some "a@x.com", some "pw", none, none⟩
    ⟨some "Bob", some "b@x.com", some "pw", none, none⟩
    none none none none [] 3 4 1 2 10 11 "pw" "a@x.com" "b@x.com"
    rfl rfl (by decide) (by decide) rfl rfl (by decide) (by decide)
    (by decide) (by decide) (by decide) (by decide) (by decide) (by decide)

/-- C5: a login whose email matches a stored record and whose password
verifies against the stored hash is answered 200 with the record minus
exactly its password field: every other stored field appears unchanged
in the response. -/
theorem login_success_returns_record_without_password
    (email password : Option String) (store : List User) (u : User)
    (he : truthy email = true) (hp : truthy password = true)
    (hfind : store.find? (fun v => v.email == email.getD "") = some u)
    (hcmp : bcryptCompare (password.getD "") u.password = true) :
    login email password store false =
      ⟨200, .loginOk "Login successful" (stripPassword u)⟩ ∧
    (stripPassword u).id = u.id ∧
    (stripPassword u).fullname = u.fullname ∧
    (stripPassword u).email = u.email ∧
    (stripPassword u).age = u.age ∧
    (stripPassword u).gender = u.gender ∧
    (stripPassword u).profile_image = u.profile_image ∧
    (stripPassword u).cv_filename = u.cv_filename ∧
    (stripPassword u).reg_date = u.reg_date := by
  refine ⟨?_, rfl, rfl, rfl, rfl, rfl, rfl, rfl, rfl⟩
  simp [login, he, hp, hfind, hcmp]

theorem login_success_returns_record_without_password_witness :
    login (some "a@x.com") (some "pw")
        [{ id := 1, fullname := "Alice", email := "a@x.com",
           password := bcryptHash 37 "pw", age := some "30",
           gender := some "female", profile_image := none,
           cv_filename := none, reg_date := 10 }] false =
      ⟨200, .loginOk "Login successful"
        { id := 1, fullname := "Alice", email := "a@x.com",
          age := some "30", gender := some "female", profile_image := none,
          cv_filename := none, reg_date := 10 }⟩ :=
  (login_success_returns_record_without_password
    (some "a@x.com") (some "pw") _
    { id := 1, fullname := "Alice", email := "a@x.com",
      password := bcryptHash 37 "pw", age := some "30",
      gender := some "female", profile_image := none,
      cv_filename := none, reg_date := 10 }
    (by decide) (by decide) (by decide) (by decide)).1

/-- C6: a dashboard request without `userId` is answered 401; one whose
id matches no stored record is answered 404; otherwise it is answered
200 with the projection of the record onto id, fullname, email, age,
gender, profile_image, cv_filename and reg_date — the password field is
not part of the projection. -/
theorem dashboard_cases
    (store : List User) (fault : Bool) :
    dashboard none store fault = ⟨401, .err "User ID required"⟩ ∧
    (∀ uid, store.find? (fun u => u.id == uid) = none →
      dashboard (some uid) store false = ⟨404, .err "User not found"⟩) ∧
    (∀ uid u, store.find? (fun u => u.id == uid) = some u →
      dashboard (some uid) store false =
        ⟨200, .dashUser
          { id := u.id, fullname := u.fullname, email := u.email,
            age := u.age, gender := u.gender,
            profile_image := u.profile_image,
            cv_filename := u.cv_filename, reg_date := u.reg_date }⟩) := by
  refine ⟨rfl, ?_, ?_⟩
  · intro uid hfind
    simp [dashboard, hfind]
  · intro uid u hfind
    simp [dashboard, hfind, stripPassword]

theorem dashboard_cases_witness :
    dashboard (some 2)
        [{ id := 1, fullname := "Alice", email := "a@x.com",
           password := "h", age := none, gender := none,
           profile_image := none, cv_filename := none, reg_date := 10 }]
        false = ⟨404, .err "User not found"⟩ :=
  (dashboard_cases _ false).2.1 2 (by decide)

/-- C7: the file filter accepts a part iff it is field `image` with a
MIME type starting `image/`, or field `cv` with MIME type exactly
`application/pdf`; and a request carrying a part the filter rejects is
answered with the request-level `Invalid file type` error, the store
untouched — the register handler body never runs. -/
theorem fileFilter_accepts_iff
    : (∀ fn mt, fileFilter fn mt = true ↔
        (fn = "image" ∧ mt.startsWith "image/" = true) ∨
        (fn = "cv" ∧ mt = "application/pdf")) ∧
      (∀ body files store salt nextId regDate fault suffix f,
        f ∈ files → fileFilter f.fieldname f.mimetype = false →
        registerEndpoint body files store salt nextId regDate fault suffix =
          (⟨500, .err "Invalid file type"⟩, store)) := by
  constructor
  · intro fn mt
    unfold fileFilter
    split_ifs with h1 h2
    · simp only [Bool.and_eq_true, beq_iff_eq] at h1
      simp [h1.1, h1.2]
    · simp only [Bool.and_eq_true, beq_iff_eq] at h2
      simp [h2.1, h2.2]
    · simp only [Bool.false_eq_true, false_iff]
      rintro (⟨hfn, hs⟩ | ⟨hfn, hmt⟩)
      · subst hfn
        exact h1 (by simp [hs])
      · subst hfn; subst hmt
        exact h2 (by simp)
  · intro body files store salt nextId regDate fault suffix f hmem hfail
    have hsome : (files.find? (fun g => !fileFilter g.fieldname g.mimetype)).isSome :=
      List.find?_isSome.mpr ⟨f, hmem, by simp [hfail]⟩
    rcases Option.isSome_iff_exists.mp hsome with ⟨g, hg⟩
    simp [registerEndpoint, multerCheck, hg]

theorem fileFilter_accepts_iff_witness :
    fileFilter "cv" "application/pdf" = true ∧
    registerEndpoint ⟨some "Alice", some "a@x.com", some "pw", none, none⟩
        [⟨"evil", "text/plain", ".txt", 5⟩] [] 3 1 10 false "1700-42" =
      (⟨500, .err "Invalid file type"⟩, []) :=
  ⟨(fileFilter_accepts_iff.1 "cv" "application/pdf").mpr
      (Or.inr ⟨rfl, rfl⟩),
   fileFilter_accepts_iff.2
      ⟨some "Alice", some "a@x.com", some "pw", none, none⟩
      [⟨"evil", "text/plain", ".txt", 5⟩] [] 3 1 10 false "1700-42"
      ⟨"evil", "text/plain", ".txt", 5⟩ (by decide) (by decide)⟩

/-- C8: a file part whose size exceeds 10 MiB (`10 * 1024 * 1024`
bytes) is not accepted by the upload configuration, whatever its field
name, and a request carrying it is answered with a request-level error,
the store untouched. -/
theorem upload_size_limit_rejects
    (body : RegisterBody) (files : List FilePart) (store : List User)
    (salt nextId regDate : Nat) (fault : Bool) (suffix : String)
    (f : FilePart) (hmem : f ∈ files) (hsz : fileSizeLimit < f.size) :
    uploadAccepts f = false ∧
    (registerEndpoint body files store salt nextId regDate fault suffix).1.status
      = 500 ∧
    (registerEndpoint body files store salt nextId regDate fault suffix).2
      = store := by
  refine ⟨?_, ?_⟩
  · unfold uploadAccepts
    have hd : decide (f.size ≤ fileSizeLimit) = false :=
      decide_eq_false (by omega)
    rw [hd, Bool.and_false]
  · cases hfind : files.find? (fun g => !fileFilter g.fieldname g.mimetype) with
    | some g => constructor <;> simp [registerEndpoint, multerCheck, hfind]
    | none =>
        have hsome : (files.find? (fun g => fileSizeLimit < g.size)).isSome :=
          List.find?_isSome.mpr ⟨f, hmem, by simpa using hsz⟩
        rcases Option.isSome_iff_exists.mp hsome with ⟨g, hg⟩
        constructor <;> simp [registerEndpoint, multerCheck, hfind, hg]

theorem upload_size_limit_rejects_witness :
    uploadAccepts ⟨"cv", "application/pdf", ".pdf", 10 * 1024 * 1024 + 1⟩
      = false ∧
    (registerEndpoint ⟨some "Alice", some "a@x.com", some "pw", none, none⟩
        [⟨"cv", "application/pdf", ".pdf", 10 * 1024 * 1024 + 1⟩]
        [] 3 1 10 false "1700-42").2 = [] :=
  ⟨(upload_size_limit_rejects
      ⟨some "Alice", some "a@x.com", some "pw", none, none⟩
      [⟨"cv", "application/pdf", ".pdf", 10 * 1024 * 1024 + 1⟩]
      [] 3 1 10 false "1700-42"
      ⟨"cv", "application/pdf", ".pdf", 10 * 1024 * 1024 + 1⟩
      (by decide) (by decide)).1,
   (upload_size_limit_rejects
      ⟨some "Alice", some "a@x.com", some "pw", none, none⟩
      [⟨"cv", "application/pdf", ".pdf", 10 * 1024 * 1024 + 1⟩]
      [] 3 1 10 false "1700-42"
      ⟨"cv", "application/pdf", ".pdf", 10 * 1024 * 1024 + 1⟩
      (by decide) (by decide)).2.2⟩

/-- C9: when a column already exists in the `users` column list, the
catalog count is non-zero and the check-then-add step issues no
ALTER TABLE; on an already-migrated table (both optional columns
present) the whole sequence issues no ALTER and leaves the column list
unchanged. -/
theorem checkAndAddColumns_idempotent_on_migrated
    (schema : List String)
    (h₁ : "profile_image" ∈ schema) (h₂ : "cv_filename" ∈ schema) :
    checkColumnCount schema "profile_image" ≠ 0 ∧
    checkColumnCount schema "cv_filename" ≠ 0 ∧
    checkAndAddColumns schema = (schema, []) := by
  have c₁ : 0 < checkColumnCount schema "profile_image" :=
    List.countP_pos_iff.mpr ⟨_, h₁, by simp⟩
  have c₂ : 0 < checkColumnCount schema "cv_filename" :=
    List.countP_pos_iff.mpr ⟨_, h₂, by simp⟩
  have n₁ : checkColumnCount schema "profile_image" ≠ 0 := by omega
  have n₂ : checkColumnCount schema "cv_filename" ≠ 0 := by omega
  refine ⟨n₁, n₂, ?_⟩
  simp [checkAndAddColumns, columnsToCheck, checkAndAddColumn, n₁, n₂]

theorem checkAndAddColumns_idempotent_on_migrated_witness :
    checkAndAddColumns
        ["id", "fullname", "email", "password", "age", "gender",
         "profile_image", "cv_filename", "reg_date"] =
      (["id", "fullname", "email", "password", "age", "gender",
        "profile_image", "cv_filename", "reg_date"], []) :=
  (checkAndAddColumns_idempotent_on_migrated _
    (by decide) (by decide)).2.2

/-- C10: the fallback branch of the storage filename generator is
unreachable: any part the file filter lets through has field name
`image` or `cv`, so its generated filename takes the `profile-` or the
`cv-` prefix branch. -/
theorem storageFilename_no_fallback
    (fn mt uniqueSuffix extname : String)
    (h : fileFilter fn mt = true) :
    storageFilename fn uniqueSuffix extname =
        "profile-" ++ uniqueSuffix ++ extname ∨
    storageFilename fn uniqueSuffix extname =
        "cv-" ++ uniqueSuffix ++ extname := by
  rcases fileFilter_field_cases h with rfl | rfl
  · exact Or.inl rfl
  · exact Or.inr rfl

theorem storageFilename_no_fallback_witness :
    storageFilename "cv" "1700-42" ".pdf" = "profile-" ++ "1700-42" ++ ".pdf" ∨
    storageFilename "cv" "1700-42" ".pdf" = "cv-" ++ "1700-42" ++ ".pdf" :=
  storageFilename_no_fallback "cv" "application/pdf" "1700-42" ".pdf"
    (by decide)

end Server
